import Mathlib

/-!
Shallow embedding of the `astrbot_plugin_acgalaxy` plugin core
(`src/models.py`, `src/api_client.py`, `src/main.py`) and proofs about it.

Conventions of the embedding:
* Python dicts (JSON objects and the in-memory cache) are association lists
  `List (String × _)` with first-match lookup; states reachable from the empty
  dict have pairwise distinct keys, so first-match update/delete coincides with
  Python dict semantics.
* Wall-clock time (`time.time()`, `datetime.now()`) is passed explicitly as an
  integer number of seconds; the sub-second part of Python's floats only moves
  exact boundary instants and is not modelled.
* Python floats in `price_range_yuan` are modelled by exact integer
  arithmetic: `p / 100` followed by `"{:.0f}"` formatting is division rounded
  half-to-even, which is what IEEE doubles compute at the magnitudes of prices
  (the `"-0"` display of negative near-zero floats is not modelled).
* Async HTTP calls are modelled by passing the transport reply (status code
  and decoded JSON body), or the callee's envelope, as an explicit argument.
-/

/-- A decoded JSON value, the result of `response.json()`. -/
inductive JVal where
  | null
  | num (n : Int)
  | str (s : String)
  | obj (fields : List (String × JVal))
  | arr (items : List JVal)
deriving Repr

/-- Python truthiness of a JSON value (`if x:`). -/
def JVal.truthy : JVal → Bool
  | .null => false
  | .num n => n != 0
  | .str s => s != ""
  | .obj fields => !fields.isEmpty
  | .arr items => !items.isEmpty

/-- First-match lookup in an association list: Python `d.get(key)` /
`d[key]` membership test on a dict. -/
def dictFind? {α : Type} : List (String × α) → String → Option α
  | [], _ => Option.none
  | (k, v) :: rest, key => if k = key then some v else dictFind? rest key

/-- Python `d.get(key, default)`. -/
def dictGetD {α : Type} (d : List (String × α)) (key : String) (default : α) : α :=
  (dictFind? d key).getD default

/-- Python `d[key] = v` on a dict: replace the entry in place when the key is
present, append it otherwise. -/
def dictSet {α : Type} : List (String × α) → String → α → List (String × α)
  | [], k, v => [(k, v)]
  | p :: rest, k, v => if p.1 = k then (k, v) :: rest else p :: dictSet rest k v

/-- Python `del d[key]`. -/
def dictDelete {α : Type} (d : List (String × α)) (key : String) : List (String × α) :=
  d.filter (fun p => decide (p.1 ≠ key))

/-- Rendering of a JSON value into an error-message string, standing for the
f-string interpolation `f"...: {response_data}"` in `models.py`. -/
def showJ (j : JVal) : String := toString (repr j)

/-- Python `str(x)` applied to a decoded JSON value (used for the `id` field:
`str(data.get("id", ""))`); the identity on strings. -/
def pyStr : JVal → String
  | .str s => s
  | v => showJ v

/-- The string a well-typed string-valued field decodes to.  At runtime Python
stores the dynamic value unchanged; the embedding fixes the `String` type,
and the two agree whenever the field holds a string (the hypothesis under
which the round-trip theorem is stated). -/
def asStr : JVal → String
  | .str s => s
  | _ => ""

/-- The integer a well-typed integer-valued field decodes to (see `asStr`). -/
def asInt : JVal → Int
  | .num n => n
  | _ => 0

/-- Optional string field (`data.get("cover")` and friends). -/
def asOptStr : Option JVal → Option String
  | some (.str s) => some s
  | _ => Option.none

/-- `ACGEvent` dataclass of `src/models.py`. -/
structure ACGEvent where
  id : String
  project_name : String
  start_time : String
  end_time : String
  start_unix : Int
  end_unix : Int
  city : String
  venue_name : String
  min_price : Int
  max_price : Int
  like_count : Int
  has_npc : Int
  cover : Option String
  coordinate : Option String
  description : Option String
deriving Repr, DecidableEq

/-- `ACGEvent.from_dict`: build an event from a decoded API item with
per-field defaults (`data.get(field, default)`). -/
def ACGEvent.from_dict (data : List (String × JVal)) : ACGEvent :=
  { id := pyStr (dictGetD data "id" (.str ""))
    project_name := asStr (dictGetD data "project_name" (.str ""))
    start_time := asStr (dictGetD data "start_time" (.str ""))
    end_time := asStr (dictGetD data "end_time" (.str ""))
    start_unix := asInt (dictGetD data "start_unix" (.num 0))
    end_unix := asInt (dictGetD data "end_unix" (.num 0))
    city := asStr (dictGetD data "city" (.str ""))
    venue_name := asStr (dictGetD data "venue_name" (.str ""))
    min_price := asInt (dictGetD data "min_price" (.num 0))
    max_price := asInt (dictGetD data "max_price" (.num 0))
    like_count := asInt (dictGetD data "like_count" (.num 0))
    has_npc := asInt (dictGetD data "has_npc" (.num 0))
    cover := asOptStr (dictFind? data "cover")
    coordinate := asOptStr (dictFind? data "coordinate")
    description := asOptStr (dictFind? data "description") }

/-- Python `f"{p/100:.0f}"` for an integer price `p` in minor units: the
quotient `p / 100` rounded half-to-even and printed without decimals. -/
def formatYuan (p : Int) : String :=
  let q := Int.fdiv p 100
  let r := p - 100 * q
  let rounded := if r < 50 then q else if 50 < r then q + 1 else if q % 2 = 0 then q else q + 1
  toString rounded

/-- `ACGEvent.price_range_yuan`: `min_price / 100 == max_price / 100` holds
exactly when the two prices are equal, so the float comparison of the source
is embedded as integer equality. -/
def ACGEvent.price_range_yuan (e : ACGEvent) : String :=
  if e.min_price = e.max_price then "￥" ++ formatYuan e.min_price
  else "￥" ++ formatYuan e.min_price ++ " - " ++ formatYuan e.max_price

/-- `ACGEvent.is_ongoing`, with `time.time()` passed explicitly as `now`. -/
def ACGEvent.is_ongoing (e : ACGEvent) (now : Int) : Bool :=
  decide (e.start_unix ≤ now ∧ now ≤ e.end_unix)

/-- `Guest` dataclass. -/
structure Guest where
  id : String
  name : String
  description : String
  avatar : Option String
deriving Repr, DecidableEq

/-- `Guest.from_dict`. -/
def Guest.from_dict (data : List (String × JVal)) : Guest :=
  { id := pyStr (dictGetD data "id" (.str ""))
    name := asStr (dictGetD data "name" (.str ""))
    description := asStr (dictGetD data "description" (.str ""))
    avatar := asOptStr (dictFind? data "avatar") }

/-- `ACGListResponse` dataclass. -/
structure ACGListResponse where
  count : Int
  data : List ACGEvent
deriving Repr, DecidableEq

/-- `GuestListResponse` dataclass. -/
structure GuestListResponse where
  data : List Guest
deriving Repr, DecidableEq

/-- `GuestACGListResponse` dataclass. -/
structure GuestACGListResponse where
  guest : Guest
  projects : List ACGEvent
deriving Repr, DecidableEq

/-- The result dict built by `search_guest_events`: guests, the concatenated
guest-tagged events (each Python event-dict-plus-guest is a pair), and
`total_count = len(all_events)`. -/
structure GuestSearchResult where
  guests : List Guest
  events : List (ACGEvent × Guest)
  total_count : Nat
deriving Repr, DecidableEq

/-- The dynamically typed `data` slot (`Any`) of an `APIResponse`. -/
inductive RData where
  | noData
  | raw (j : JVal)
  | event (e : ACGEvent)
  | eventList (r : ACGListResponse)
  | guestList (r : GuestListResponse)
  | guestAcg (r : GuestACGListResponse)
  | guestSearch (r : GuestSearchResult)
deriving Repr

/-- Python truthiness of the `data` slot (`if response.data:`); a `None` slot
is falsy, a decoded JSON value follows JSON truthiness, and dataclass
instances are always truthy. -/
def RData.truthy : RData → Bool
  | .noData => false
  | .raw j => j.truthy
  | .event _ => true
  | .eventList _ => true
  | .guestList _ => true
  | .guestAcg _ => true
  | .guestSearch _ => true

/-- `APIResponse` dataclass. -/
structure APIResponse where
  success : Bool
  message : String
  data : RData
  status_code : Int
deriving Repr

/-- `APIResponse.success_response` (the `message` default `"请求成功"` is
written out at every call site). -/
def APIResponse.success_response (data : RData) (message : String) : APIResponse :=
  { success := true, message := message, data := data, status_code := 200 }

/-- `APIResponse.error_response` (the `status_code` default 500 is written out
at every call site). -/
def APIResponse.error_response (message : String) (status_code : Int) : APIResponse :=
  { success := false, message := message, data := .noData, status_code := status_code }

/-- `APIResponse._get_error_message`: the status-code → text lookup table. -/
def APIResponse.getErrorMessage (status_code : Int) : String :=
  if status_code = 400 then "请求参数错误"
  else if status_code = 404 then "资源不存在"
  else if status_code = 500 then "服务器内部错误"
  else if status_code = 502 then "网关错误"
  else if status_code = 503 then "服务不可用"
  else if status_code = 504 then "网关超时"
  else "HTTP错误 " ++ toString status_code

/-- `APIResponse.from_http_response`: 200 → success wrapping the body, any
other status → error with the lookup text and the interpolated body. -/
def APIResponse.from_http_response (status_code : Int) (response_data : JVal) : APIResponse :=
  if status_code = 200 then .success_response (.raw response_data) "请求成功"
  else .error_response (APIResponse.getErrorMessage status_code ++ ": " ++ showJ response_data) status_code

/-- `ACGalaxyAPIClient.get_acg_info`, with the transport reply for
`GET /detail/{acg_id}` passed explicitly as `(status_code, body)`.  A 200
reply whose body is truthy but is not a JSON object, or whose truthy `data`
member is not an object, raises inside the `try` and is converted by the
`except` into a generic 500 failure. -/
def get_acg_info (status_code : Int) (body : JVal) : APIResponse :=
  let response := APIResponse.from_http_response status_code body
  if response.success && response.data.truthy then
    match response.data with
    | .raw (.obj fields) =>
      match dictFind? fields "data" with
      | some event_data =>
        if event_data.truthy then
          match event_data with
          | .obj eventFields =>
            APIResponse.success_response (.event (ACGEvent.from_dict eventFields)) "获取漫展信息成功"
          | _ => APIResponse.error_response "获取漫展信息失败: " 500
        else APIResponse.error_response "漫展信息不存在" 404
      | none => APIResponse.error_response "漫展信息不存在" 404
    | _ => APIResponse.error_response "获取漫展信息失败: " 500
  else response

/-- A query-parameter value: `httpx` accepts both ints and strings. -/
inductive PVal where
  | int (n : Int)
  | str (s : String)
deriving Repr, DecidableEq

/-- Python truthiness of a parameter value. -/
def PVal.truthy : PVal → Bool
  | .int n => n != 0
  | .str s => s != ""

/-- One optional string parameter of `get_acg_list`: attached exactly when
the argument is a truthy string (`if city_name: params[...] = city_name`). -/
def optStrParam (name : String) : Option String → List (String × PVal)
  | some s => if s != "" then [(name, .str s)] else []
  | Option.none => []

/-- One optional int parameter of `get_acg_list` (`if page: ...`): `None`
and `0` are both falsy and omitted. -/
def optIntParam (name : String) : Option Int → List (String × PVal)
  | some n => if n != 0 then [(name, .int n)] else []
  | Option.none => []

/-- The query-parameter dict `ACGalaxyAPIClient.get_acg_list` builds and
passes to the `/list` request: `city_id` unconditionally, the five optional
parameters only when truthy. -/
def acgListParams (city_id : Int) (city_name key order : Option String)
    (page count : Option Int) : List (String × PVal) :=
  [("city_id", PVal.int city_id)]
    ++ optStrParam "city_name" city_name
    ++ optStrParam "key" key
    ++ optStrParam "order" order
    ++ optIntParam "page" page
    ++ optIntParam "count" count

/-- One iteration batch of the guest loop in
`ACGalaxyAPIClient.search_guest_events`, run over the whole guest list:
`some` of the concatenated tagged events, or `none` when an iteration raises
(a per-guest reply that is a success but does not carry a
`GuestACGListResponse`, so that `.projects` fails), which aborts the loop
and lands in the method's `except` clause. -/
def collectGuestEvents (fetch : String → APIResponse) : List Guest → Option (List (ACGEvent × Guest))
  | [] => some []
  | g :: rest =>
    let acg_response := fetch g.id
    if acg_response.success then
      match acg_response.data with
      | .guestAcg guest_acg_data =>
        (collectGuestEvents fetch rest).map
          (fun tail => guest_acg_data.projects.map (fun e => (e, g)) ++ tail)
      | _ => Option.none
    else collectGuestEvents fetch rest

/-- `ACGalaxyAPIClient.search_guest_events`: `guest_response` is what the
inner `get_guest_list(guest_name)` call returned, and `fetch` maps a guest id
to what `get_guest_acg_list(guest.id)` returns for it.  A successful guest
search whose data is not a `GuestListResponse` raises on `.data` and is
converted by the `except` into a generic 500 failure. -/
def search_guest_events (guest_response : APIResponse) (fetch : String → APIResponse) : APIResponse :=
  if !guest_response.success then guest_response
  else
    match guest_response.data with
    | .guestList guest_list =>
      if guest_list.data.isEmpty then APIResponse.error_response "未找到相关嘉宾信息" 404
      else
        match collectGuestEvents fetch guest_list.data with
        | some all_events =>
          APIResponse.success_response
            (.guestSearch { guests := guest_list.data, events := all_events, total_count := all_events.length })
            "搜索嘉宾相关漫展成功"
        | Option.none => APIResponse.error_response "搜索嘉宾相关漫展失败: " 500
    | _ => APIResponse.error_response "搜索嘉宾相关漫展失败: " 500

/-- The per-guest tagged events that actually make it into the result:
events of guests whose fetch failed are omitted.  This is the specification
side of the loop, compared with `collectGuestEvents` in the C10 theorem. -/
def expectedGuestEvents (fetch : String → APIResponse) : List Guest → List (ACGEvent × Guest)
  | [] => []
  | g :: rest =>
    (if (fetch g.id).success then
      match (fetch g.id).data with
      | .guestAcg guest_acg_data => guest_acg_data.projects.map (fun e => (e, g))
      | _ => []
    else []) ++ expectedGuestEvents fetch rest

/-- The bucket key chosen for one event in `TimeGroupedEvents.from_events`:
the literal marker `"进行中"` when the event is ongoing at `now`, its display
`start_time` otherwise. -/
def timeKeyOf (now : Int) (e : ACGEvent) : String :=
  if e.is_ongoing now then "进行中" else e.start_time

/-- `time_groups[time_key].append(event)`, creating the bucket on first use;
first-match update is Python dict update on the nodup states reachable from
the empty dict. -/
def dictAppend : List (String × List ACGEvent) → String → ACGEvent → List (String × List ACGEvent)
  | [], k, e => [(k, [e])]
  | p :: rest, k, e => if p.1 = k then (p.1, p.2 ++ [e]) :: rest else p :: dictAppend rest k e

/-- `TimeGroupedEvents` dataclass; the dict is an insertion-ordered
association list. -/
structure TimeGroupedEvents where
  time_groups : List (String × List ACGEvent)
deriving Repr, DecidableEq

/-- `TimeGroupedEvents.from_events`, with `time.time()` passed as `now`. -/
def TimeGroupedEvents.from_events (now : Int) (events : List ACGEvent) : TimeGroupedEvents :=
  { time_groups := events.foldl (fun groups e => dictAppend groups (timeKeyOf now e) e) [] }

/-- The contents of one bucket (empty when the key is missing). -/
def bucketOf (groups : List (String × List ACGEvent)) (k : String) : List ACGEvent :=
  dictGetD groups k []

/-- Split a character list at every occurrence of the separator, keeping
empty pieces: the behaviour of Python `s.split(sep)` for a one-character
separator. -/
def splitCharsOn (sep : Char) : List Char → List Char → List (List Char)
  | [], acc => [acc.reverse]
  | x :: xs, acc =>
    if x == sep then acc.reverse :: splitCharsOn sep xs []
    else splitCharsOn sep xs (x :: acc)

/-- Python `s.split(sep)` for a one-character separator. -/
def pySplit (s : String) (sep : Char) : List String :=
  (splitCharsOn sep s.toList []).map (fun cs => { data := cs })

/-- All characters of the string are ASCII digits. -/
def allDigits (s : String) : Bool := s.toList.all Char.isDigit

/-- Numeric value of a digit string. -/
def natOfDigits (s : String) : Nat :=
  s.toList.foldl (fun a c => a * 10 + (c.toNat - 48)) 0

/-- Gregorian leap year, as Python's `datetime` computes it. -/
def isLeap (y : Int) : Bool := y % 4 == 0 && (y % 100 != 0 || y % 400 == 0)

/-- Length of a month, used by the `datetime` constructor to validate the
day. -/
def daysInMonth (y : Int) (m : Nat) : Nat :=
  if m = 2 then (if isLeap y then 29 else 28)
  else if m = 4 ∨ m = 6 ∨ m = 9 ∨ m = 11 then 30
  else 31

/-- `datetime.strptime(date_part, "%Y-%m-%d")`: `%Y` matches exactly four
digits, `%m` one or two digits valued 1–12, `%d` one or two digits valued
1–31, the dashes are literal and the whole string must be consumed; the
`datetime` constructor then rejects year 0 and a day beyond the month's
length.  `none` models the `ValueError` the source catches. -/
def parseYMD (s : String) : Option (Int × Nat × Nat) :=
  match pySplit s (Char.ofNat 45) with
  | [ys, ms, ds] =>
    let y := natOfDigits ys
    let m := natOfDigits ms
    let d := natOfDigits ds
    if ys.length = 4 ∧ allDigits ys = true
        ∧ (ms.length = 1 ∨ ms.length = 2) ∧ allDigits ms = true ∧ 1 ≤ m ∧ m ≤ 12
        ∧ (ds.length = 1 ∨ ds.length = 2) ∧ allDigits ds = true ∧ 1 ≤ d ∧ d ≤ 31
        ∧ 1 ≤ y ∧ d ≤ daysInMonth (y : Int) m
    then some ((y : Int), m, d)
    else Option.none
  | _ => Option.none

/-- Days from 1970-01-01 to the given civil date (the standard
days-from-civil algorithm); multiplied by 86400 this is the epoch second of
the date's midnight, which is what `datetime.strptime` returns. -/
def daysFromCivil (y : Int) (m d : Nat) : Int :=
  let yShifted : Int := if m ≤ 2 then y - 1 else y
  let era : Int := Int.fdiv yShifted 400
  let yoe : Int := yShifted - era * 400
  let mp : Nat := (m + 9) % 12
  let doy : Int := (153 * (mp : Int) + 2) / 5 + (d : Int) - 1
  let doe : Int := yoe * 365 + yoe / 4 - yoe / 100 + doy
  era * 146097 + doe - 719468

/-- The characters of `date_str` before the first space
(`date_str.split(" ")[0]`), the whole string when it has no space. -/
def datePart (date_str : String) : String :=
  (pySplit date_str (Char.ofNat 32)).headD date_str

/-- `calculate_days_until(date_str)` of `src/models.py`, with
`datetime.now()` passed as `now` (epoch seconds): `max(0, delta.days)` where
`delta.days` is the floor of the signed difference in days, and any parse
failure yields 0. -/
def calculate_days_until (date_str : String) (now : Int) : Int :=
  match parseYMD (datePart date_str) with
  | some (y, m, d) => max 0 (Int.fdiv (daysFromCivil y m d * 86400 - now) 86400)
  | Option.none => 0

/-- `TimeGroupedEvents.get_days_until_start` (its body repeats
`calculate_days_until` after the `"进行中"` short-circuit). -/
def TimeGroupedEvents.get_days_until_start (_tg : TimeGroupedEvents) (time_key : String) (now : Int) : Int :=
  if time_key = "进行中" then 0
  else
    match parseYMD (datePart time_key) with
    | some (y, m, d) => max 0 (Int.fdiv (daysFromCivil y m d * 86400 - now) 86400)
    | Option.none => 0

/-- `ACGalaxyPlugin.set_cached_data`: `self.cache[key] = (data, time.time())`. -/
def set_cached_data {α : Type} (cache : List (String × α × Int)) (key : String) (data : α) (now : Int) : List (String × α × Int) :=
  dictSet cache key (data, now)

/-- `ACGalaxyPlugin.get_cached_data`: returns the cached value while
`time.time() - timestamp < self.cache_expire_time`, otherwise deletes the
entry and reports a miss; also returns the cache mapping after the call. -/
def get_cached_data {α : Type} (cache : List (String × α × Int)) (key : String) (now expire : Int) : Option α × List (String × α × Int) :=
  match dictFind? cache key with
  | some (data, timestamp) =>
    if now - timestamp < expire then (some data, cache)
    else (Option.none, dictDelete cache key)
  | Option.none => (Option.none, cache)

/-- Lookup after a dict insert finds the inserted value. -/
theorem dictFind?_dictSet_self {α : Type} (c : List (String × α)) (k : String) (v : α) :
    dictFind? (dictSet c k v) k = some v := by
  induction c with
  | nil => simp [dictSet, dictFind?]
  | cons p rest ih =>
    by_cases h : p.1 = k
    · simp [dictSet, h, dictFind?]
    · simp [dictSet, h, dictFind?, ih]

/-- Lookup after a dict delete misses the deleted key. -/
theorem dictFind?_dictDelete_self {α : Type} (c : List (String × α)) (k : String) :
    dictFind? (dictDelete c k) k = Option.none := by
  induction c with
  | nil => simp [dictDelete, dictFind?]
  | cons p rest ih =>
    by_cases h : p.1 = k
    · simpa [dictDelete, h] using ih
    · simpa [dictDelete, h, dictFind?] using ih

/-- Claim C1 as stated is false: 201 is in the 2xx range, yet
`from_http_response` builds a Failure envelope for it, because the source
compares the status against the literal 200. -/
theorem from_http_response_2xx_cex :
    (APIResponse.from_http_response 201 (JVal.obj [("data", JVal.num 1)])).success = false := rfl

/-- Claim C1, amended: a reply with status exactly 200 yields Success
wrapping the decoded body; every other status — other 2xx codes included —
yields Failure whose message is the lookup-table text (400→bad request,
404→not found, 500→internal error, 502→bad gateway, 503→unavailable,
504→gateway timeout, any other code→generic text with the code)
concatenated with the raw body, and which carries that status code. -/
theorem from_http_response_spec (status_code : Int) (b : JVal) :
    (status_code = 200 →
      APIResponse.from_http_response status_code b = APIResponse.success_response (.raw b) "请求成功")
    ∧ (status_code ≠ 200 →
      APIResponse.from_http_response status_code b =
        APIResponse.error_response (APIResponse.getErrorMessage status_code ++ ": " ++ showJ b) status_code)
    ∧ APIResponse.getErrorMessage 400 = "请求参数错误"
    ∧ APIResponse.getErrorMessage 404 = "资源不存在"
    ∧ APIResponse.getErrorMessage 500 = "服务器内部错误"
    ∧ APIResponse.getErrorMessage 502 = "网关错误"
    ∧ APIResponse.getErrorMessage 503 = "服务不可用"
    ∧ APIResponse.getErrorMessage 504 = "网关超时"
    ∧ (status_code ∉ ([400, 404, 500, 502, 503, 504] : List Int) →
        APIResponse.getErrorMessage status_code = "HTTP错误 " ++ toString status_code) := by
  refine ⟨fun h => by simp [APIResponse.from_http_response, h],
    fun h => by simp [APIResponse.from_http_response, h],
    by decide, by decide, by decide, by decide, by decide, by decide, fun h => ?_⟩
  simp only [List.mem_cons, List.not_mem_nil, or_false, not_or] at h
  obtain ⟨h1, h2, h3, h4, h5, h6⟩ := h
  simp [APIResponse.getErrorMessage, h1, h2, h3, h4, h5, h6]

/-- Concrete instance of the amended C1 at status 404. -/
theorem from_http_response_spec_witness :
    APIResponse.from_http_response 404 (JVal.obj []) =
      APIResponse.error_response (APIResponse.getErrorMessage 404 ++ ": " ++ showJ (JVal.obj [])) 404 :=
  (from_http_response_spec 404 (JVal.obj [])).2.1 (by decide)

/-- Claim C2: when the guest search succeeded but matched zero guests,
`search_guest_events` returns the 404 "no guest found" Failure, whatever the
per-guest fetch would have returned — it is never a Success with empty
data. -/
theorem search_guest_events_no_guests (guest_response : APIResponse)
    (fetch : String → APIResponse)
    (hs : guest_response.success = true)
    (hd : guest_response.data = .guestList { data := [] }) :
    search_guest_events guest_response fetch = APIResponse.error_response "未找到相关嘉宾信息" 404 := by
  simp [search_guest_events, hs, hd]

/-- Concrete instance of C2, with a fetch oracle that would fail. -/
theorem search_guest_events_no_guests_witness :
    search_guest_events (APIResponse.success_response (.guestList { data := [] }) "获取嘉宾列表成功")
      (fun _ => APIResponse.error_response "boom" 500)
      = APIResponse.error_response "未找到相关嘉宾信息" 404 :=
  search_guest_events_no_guests _ _ rfl rfl

/-- The per-guest loop of `search_guest_events` equals its specification
when every successful per-guest reply is well-shaped (which is what
`get_guest_acg_list` produces): no iteration raises, and the loop collects
exactly the tagged events of the guests whose fetch succeeded. -/
theorem collectGuestEvents_eq_expected (fetch : String → APIResponse) (guests : List Guest)
    (h : ∀ g ∈ guests, (fetch g.id).success = true → ∃ ga, (fetch g.id).data = .guestAcg ga) :
    collectGuestEvents fetch guests = some (expectedGuestEvents fetch guests) := by
  induction guests with
  | nil => simp [collectGuestEvents, expectedGuestEvents]
  | cons g rest ih =>
    have hrest : ∀ g2 ∈ rest, (fetch g2.id).success = true → ∃ ga, (fetch g2.id).data = .guestAcg ga :=
      fun g2 hg2 => h g2 (List.mem_cons_of_mem _ hg2)
    by_cases hsucc : (fetch g.id).success = true
    · obtain ⟨ga, hga⟩ := h g (List.mem_cons_self _ _) hsucc
      simp [collectGuestEvents, expectedGuestEvents, hsucc, hga, ih hrest]
    · simp [collectGuestEvents, expectedGuestEvents, hsucc, ih hrest]

/-- Claim C10: when the guest search matched at least one guest,
`search_guest_events` returns Success even if some or all per-guest fetches
fail: the result's events are exactly the concatenation over the guest list
in which a failed guest contributes nothing, and `total_count` is its
length.  An individual per-guest fetch failure never makes the overall
result a Failure. -/
theorem search_guest_events_partial_failure (guest_response : APIResponse)
    (fetch : String → APIResponse) (gl : GuestListResponse)
    (hs : guest_response.success = true)
    (hd : guest_response.data = .guestList gl)
    (hne : gl.data ≠ [])
    (hshape : ∀ g ∈ gl.data, (fetch g.id).success = true → ∃ ga, (fetch g.id).data = .guestAcg ga) :
    search_guest_events guest_response fetch =
      APIResponse.success_response
        (.guestSearch { guests := gl.data, events := expectedGuestEvents fetch gl.data,
                        total_count := (expectedGuestEvents fetch gl.data).length })
        "搜索嘉宾相关漫展成功" := by
  simp [search_guest_events, hs, hd, hne, collectGuestEvents_eq_expected fetch gl.data hshape]

/-- A sample guest for concrete instances. -/
def sampleGuest : Guest := { id := "9", name := "n", description := "", avatar := Option.none }

/-- Concrete instance of C10 in which every per-guest fetch fails: the
result is still Success, with the failed guest's events omitted. -/
theorem search_guest_events_partial_failure_witness :
    search_guest_events (APIResponse.success_response (.guestList { data := [sampleGuest] }) "获取嘉宾列表成功")
      (fun _ => APIResponse.error_response "请求超时" 408) =
      APIResponse.success_response
        (.guestSearch { guests := [sampleGuest], events := [], total_count := 0 })
        "搜索嘉宾相关漫展成功" :=
  search_guest_events_partial_failure _ _ _ rfl rfl (by decide)
    (by
      intro g hg hsucc
      simp [APIResponse.error_response] at hsucc)

/-- Claim C8 as stated is false: an HTTP 200 reply whose body is the empty
object — so the nested `data` payload is certainly absent — makes
`get_acg_info` return a Success envelope (the falsy body fails the
`response.data` truthiness guard and the transport envelope is returned
unchanged). -/
theorem get_acg_info_empty_body_cex :
    (get_acg_info 200 (JVal.obj [])).success = true
    ∧ dictFind? ([] : List (String × JVal)) "data" = Option.none := by
  constructor <;> rfl

/-- Claim C8, amended: for an HTTP 200 reply whose body is a non-empty JSON
object in which the nested `data` member is missing or falsy (e.g.
`data: null`), `get_acg_info` returns the 404 "not found" Failure rather
than a Success; only an entirely empty/falsy body leaks the transport
Success through. -/
theorem get_acg_info_missing_data_spec (fields : List (String × JVal))
    (hne : fields ≠ [])
    (habsent : dictFind? fields "data" = Option.none
      ∨ ∃ v, dictFind? fields "data" = some v ∧ v.truthy = false) :
    get_acg_info 200 (.obj fields) = APIResponse.error_response "漫展信息不存在" 404 := by
  have htr : (JVal.obj fields).truthy = true := by
    simp [JVal.truthy, List.isEmpty_iff, hne]
  rcases habsent with hnone | ⟨v, hv, hvf⟩
  · simp [get_acg_info, APIResponse.from_http_response, APIResponse.success_response,
      RData.truthy, htr, hnone]
  · simp [get_acg_info, APIResponse.from_http_response, APIResponse.success_response,
      RData.truthy, htr, hv, hvf]

/-- Concrete instance of the amended C8 at body `data: null`. -/
theorem get_acg_info_missing_data_spec_witness :
    get_acg_info 200 (.obj [("data", JVal.null)]) = APIResponse.error_response "漫展信息不存在" 404 :=
  get_acg_info_missing_data_spec [("data", JVal.null)] (List.cons_ne_nil _ _)
    (Or.inr ⟨JVal.null, rfl, rfl⟩)

/-- Claim C9: building an `ACGEvent` from a well-formed API item — a
dictionary supplying a string `id` and `project_name` and integer
`min_price`, `max_price`, `start_unix`, `end_unix` — and reading those
fields back yields exactly the supplied values, unchanged. -/
theorem from_dict_round_trip (d : List (String × JVal)) (i pn : String) (mp xp su eu : Int)
    (hid : dictFind? d "id" = some (.str i))
    (hpn : dictFind? d "project_name" = some (.str pn))
    (hmp : dictFind? d "min_price" = some (.num mp))
    (hxp : dictFind? d "max_price" = some (.num xp))
    (hsu : dictFind? d "start_unix" = some (.num su))
    (heu : dictFind? d "end_unix" = some (.num eu)) :
    (ACGEvent.from_dict d).id = i ∧ (ACGEvent.from_dict d).project_name = pn
    ∧ (ACGEvent.from_dict d).min_price = mp ∧ (ACGEvent.from_dict d).max_price = xp
    ∧ (ACGEvent.from_dict d).start_unix = su ∧ (ACGEvent.from_dict d).end_unix = eu := by
  simp [ACGEvent.from_dict, dictGetD, hid, hpn, hmp, hxp, hsu, heu, pyStr, asStr, asInt]

/-- A sample well-formed API item for concrete instances. -/
def sampleItem : List (String × JVal) :=
  [("id", .str "77"), ("project_name", .str "expo"), ("min_price", .num 2000),
   ("max_price", .num 5000), ("start_unix", .num 100), ("end_unix", .num 200)]

/-- Concrete instance of C9 on `sampleItem`. -/
theorem from_dict_round_trip_witness :
    (ACGEvent.from_dict sampleItem).id = "77"
    ∧ (ACGEvent.from_dict sampleItem).project_name = "expo"
    ∧ (ACGEvent.from_dict sampleItem).min_price = 2000
    ∧ (ACGEvent.from_dict sampleItem).max_price = 5000
    ∧ (ACGEvent.from_dict sampleItem).start_unix = 100
    ∧ (ACGEvent.from_dict sampleItem).end_unix = 200 :=
  from_dict_round_trip sampleItem _ _ _ _ _ _ rfl rfl rfl rfl rfl rfl

/-- Claim C5: a `set` followed by an immediate `get` (any positive expiry
window) returns the stored value; and once `now − storedAt ≥ expiry`, `get`
reports absent and physically removes the key from the mapping. -/
theorem cache_get_set_spec (α : Type) (cache : List (String × α × Int)) (key : String)
    (v : α) (now now2 expire : Int) :
    (0 < expire →
      (get_cached_data (set_cached_data cache key v now) key now expire).1 = some v)
    ∧ (∀ d ts, dictFind? cache key = some (d, ts) → expire ≤ now2 - ts →
        (get_cached_data cache key now2 expire).1 = Option.none
        ∧ dictFind? (get_cached_data cache key now2 expire).2 key = Option.none) := by
  constructor
  · intro hpos
    simp [get_cached_data, set_cached_data, dictFind?_dictSet_self, hpos]
  · intro d ts hfind hexp
    have hlt : ¬ (now2 - ts < expire) := by omega
    simp [get_cached_data, hfind, hlt, dictFind?_dictDelete_self]

/-- Concrete instance of C5: an immediate read after a store, with the
default 30-minute (1800 s) expiry window. -/
theorem cache_get_set_spec_witness :
    (get_cached_data (set_cached_data ([] : List (String × Nat × Int)) "k" 7 100) "k" 100 1800).1 = some 7 :=
  (cache_get_set_spec Nat [] "k" 7 100 0 1800).1 (by decide)

/-- Claim C6 as stated is false: with all arguments at their defaults the
parameter dict still contains `city_id` with the falsy value 0, so the
parameter set is not restricted to non-empty supplied values. -/
theorem acg_list_params_cex :
    ("city_id", PVal.int 0) ∈ acgListParams 0 Option.none Option.none Option.none Option.none Option.none
    ∧ PVal.truthy (PVal.int 0) = false := by
  constructor
  · decide
  · decide

/-- Membership in an optional string parameter. -/
theorem mem_optStrParam (name : String) (o : Option String) (k : String) (v : PVal) :
    ((k, v) ∈ optStrParam name o) ↔ ∃ s, o = some s ∧ s ≠ "" ∧ k = name ∧ v = .str s := by
  cases o with
  | none => simp [optStrParam]
  | some s =>
    by_cases h : s = ""
    · simp [optStrParam, h]
    · simp [optStrParam, h, Prod.ext_iff]

/-- Membership in an optional int parameter. -/
theorem mem_optIntParam (name : String) (o : Option Int) (k : String) (v : PVal) :
    ((k, v) ∈ optIntParam name o) ↔ ∃ n, o = some n ∧ n ≠ 0 ∧ k = name ∧ v = .int n := by
  cases o with
  | none => simp [optIntParam]
  | some n =>
    by_cases h : n = 0
    · simp [optIntParam, h]
    · simp [optIntParam, h, Prod.ext_iff]

/-- Claim C6, amended: the query-parameter set sent to `/list` always
contains `city_id` with the supplied value (even when it is 0), and contains
each of `city_name`, `key`, `order`, `page`, `count` exactly when the
supplied value is truthy (not `None`, not empty, not zero) — and nothing
else. -/
theorem acg_list_params_spec (city_id : Int) (city_name key order : Option String)
    (page count : Option Int) (k : String) (v : PVal) :
    ((k, v) ∈ acgListParams city_id city_name key order page count) ↔
      ((k = "city_id" ∧ v = .int city_id)
        ∨ (∃ s, city_name = some s ∧ s ≠ "" ∧ k = "city_name" ∧ v = .str s)
        ∨ (∃ s, key = some s ∧ s ≠ "" ∧ k = "key" ∧ v = .str s)
        ∨ (∃ s, order = some s ∧ s ≠ "" ∧ k = "order" ∧ v = .str s)
        ∨ (∃ n, page = some n ∧ n ≠ 0 ∧ k = "page" ∧ v = .int n)
        ∨ (∃ n, count = some n ∧ n ≠ 0 ∧ k = "count" ∧ v = .int n)) := by
  simp [acgListParams, List.mem_append, mem_optStrParam, mem_optIntParam, Prod.ext_iff]

/-- Concrete instance of the amended C6: a truthy `city_name` is attached. -/
theorem acg_list_params_spec_witness :
    ("city_name", PVal.str "上海") ∈ acgListParams 0 (some "上海") Option.none Option.none Option.none Option.none :=
  (acg_list_params_spec 0 (some "上海") Option.none Option.none Option.none Option.none
      "city_name" (PVal.str "上海")).mpr
    (Or.inr (Or.inl ⟨"上海", rfl, by decide, rfl, rfl⟩))

/-- An event carrying the given prices, for concrete price-display
instances. -/
def mkPriceEvent (minP maxP : Int) : ACGEvent :=
  { id := "1", project_name := "p", start_time := "", end_time := "", start_unix := 0,
    end_unix := 0, city := "", venue_name := "", min_price := minP, max_price := maxP,
    like_count := 0, has_npc := 0, cover := Option.none, coordinate := Option.none,
    description := Option.none }

/-- Claim C7 as stated is false: the source formats prices with the
fullwidth yen sign `￥` (U+FFE5), so the display for equal prices 3000 is
`"￥30"`, which differs from the claimed `"¥30"` (halfwidth `¥`, U+00A5). -/
theorem price_range_yuan_cex :
    (mkPriceEvent 3000 3000).price_range_yuan = "￥30" ∧ "￥30" ≠ "¥30" := by
  constructor
  · decide
  · decide

/-- Claim C7, amended: with `min_price = max_price = 3000` the display is
exactly `"￥30"`, and with `min_price = 2000`, `max_price = 5000` it is
exactly `"￥20 - 50"` (fullwidth yen sign; single value when the prices
coincide, dashed range otherwise, in whole yuan from minor units). -/
theorem price_range_yuan_spec (e : ACGEvent) :
    (e.min_price = 3000 → e.max_price = 3000 → e.price_range_yuan = "￥30")
    ∧ (e.min_price = 2000 → e.max_price = 5000 → e.price_range_yuan = "￥20 - 50") := by
  constructor
  · intro h1 h2
    simp only [ACGEvent.price_range_yuan, h1, h2]
    decide
  · intro h1 h2
    simp only [ACGEvent.price_range_yuan, h1, h2]
    decide

/-- Concrete instance of the amended C7 for the 2000/5000 range. -/
theorem price_range_yuan_spec_witness :
    (mkPriceEvent 2000 5000).price_range_yuan = "￥20 - 50" :=
  (price_range_yuan_spec (mkPriceEvent 2000 5000)).2 rfl rfl

/-- Claim C4: `get_days_until_start` returns 0 on the ongoing marker,
never returns a negative number for any key (and, being a total function,
never raises), returns 0 whenever parsing the characters before the first
space as a `%Y-%m-%d` date fails, and otherwise returns
`max(0, floor((targetDate − now) in days))`. -/
theorem get_days_until_start_spec (tg : TimeGroupedEvents) (time_key : String) (now : Int) :
    tg.get_days_until_start "进行中" now = 0
    ∧ 0 ≤ tg.get_days_until_start time_key now
    ∧ (time_key ≠ "进行中" → parseYMD (datePart time_key) = Option.none →
        tg.get_days_until_start time_key now = 0)
    ∧ (∀ y m d, time_key ≠ "进行中" → parseYMD (datePart time_key) = some (y, m, d) →
        tg.get_days_until_start time_key now
          = max 0 (Int.fdiv (daysFromCivil y m d * 86400 - now) 86400)) := by
  refine ⟨by simp [TimeGroupedEvents.get_days_until_start], ?_, ?_, ?_⟩
  · unfold TimeGroupedEvents.get_days_until_start
    split
    · exact le_refl 0
    · split
      · exact le_max_left 0 _
      · exact le_refl 0
  · intro h1 h2
    simp [TimeGroupedEvents.get_days_until_start, h1, h2]
  · intro y m d h1 h2
    simp [TimeGroupedEvents.get_days_until_start, h1, h2]

/-- Concrete instance of C4 on a malformed key: the result is 0, not an
exception and not a negative number. -/
theorem get_days_until_start_spec_witness :
    TimeGroupedEvents.get_days_until_start { time_groups := [] } "not a date" 0 = 0 :=
  (get_days_until_start_spec { time_groups := [] } "not a date" 0).2.2.1 (by decide) (by decide)

/-- Appending one event to its bucket changes exactly that bucket, at its
end. -/
theorem bucketOf_dictAppend (g : List (String × List ACGEvent)) (k k2 : String) (e : ACGEvent) :
    bucketOf (dictAppend g k e) k2 = bucketOf g k2 ++ if k = k2 then [e] else [] := by
  induction g with
  | nil =>
    by_cases h : k = k2 <;> simp [dictAppend, bucketOf, dictGetD, dictFind?, h]
  | cons p rest ih =>
    obtain ⟨pk, pv⟩ := p
    by_cases hpk : pk = k
    · by_cases hk2 : k = k2
      · subst hk2
        simp [dictAppend, hpk, bucketOf, dictGetD, dictFind?]
      · have hpk2 : pk ≠ k2 := fun h => hk2 (hpk ▸ h)
        simp [dictAppend, hpk, bucketOf, dictGetD, dictFind?, hpk2, hk2]
    · by_cases hpk2 : pk = k2
      · have hk2 : ¬ (k = k2) := fun h => hpk (by rw [hpk2, h])
        have hk2s : ¬ (k2 = k) := fun h => hk2 h.symm
        simp [dictAppend, hpk, bucketOf, dictGetD, dictFind?, hpk2, hk2, hk2s]
      · simpa [dictAppend, hpk, bucketOf, dictGetD, dictFind?, hpk2] using ih

/-- The keys after appending an event are the old keys, possibly extended by
the event's key. -/
theorem mem_keys_dictAppend (g : List (String × List ACGEvent)) (k : String) (e : ACGEvent) (x : String) :
    x ∈ (dictAppend g k e).map Prod.fst ↔ x ∈ g.map Prod.fst ∨ x = k := by
  induction g with
  | nil => simp [dictAppend]
  | cons p rest ih =>
    obtain ⟨pk, pv⟩ := p
    by_cases hpk : pk = k
    · subst hpk
      simp [dictAppend]
      tauto
    · simp [dictAppend, hpk, ih]
      tauto

/-- Appending an event preserves distinctness of the bucket keys. -/
theorem nodup_keys_dictAppend (g : List (String × List ACGEvent)) (k : String) (e : ACGEvent)
    (h : (g.map Prod.fst).Nodup) : ((dictAppend g k e).map Prod.fst).Nodup := by
  induction g with
  | nil => simp [dictAppend]
  | cons p rest ih =>
    obtain ⟨pk, pv⟩ := p
    simp only [List.map_cons, List.nodup_cons] at h
    obtain ⟨hnm, hnd⟩ := h
    by_cases hpk : pk = k
    · subst hpk
      have hd : dictAppend ((pk, pv) :: rest) pk e = (pk, pv ++ [e]) :: rest := by
        simp [dictAppend]
      rw [hd, List.map_cons, List.nodup_cons]
      exact ⟨hnm, hnd⟩
    · have hd : dictAppend ((pk, pv) :: rest) k e = (pk, pv) :: dictAppend rest k e := by
        simp [dictAppend, hpk]
      rw [hd, List.map_cons, List.nodup_cons]
      refine ⟨?_, ih hnd⟩
      rw [mem_keys_dictAppend]
      rintro (hmem | heq)
      · exact hnm hmem
      · exact hpk heq

/-- Appending an event adds exactly that event to the multiset of grouped
events. -/
theorem flatten_dictAppend_perm (g : List (String × List ACGEvent)) (k : String) (e : ACGEvent) :
    ((dictAppend g k e).map Prod.snd).flatten.Perm ((g.map Prod.snd).flatten ++ [e]) := by
  induction g with
  | nil => simp [dictAppend]
  | cons p rest ih =>
    obtain ⟨pk, pv⟩ := p
    by_cases hpk : pk = k
    · subst hpk
      have hd : dictAppend ((pk, pv) :: rest) pk e = (pk, pv ++ [e]) :: rest := by
        simp [dictAppend]
      rw [hd]
      simp only [List.map_cons, List.flatten_cons, List.append_assoc]
      exact List.Perm.append_left pv List.perm_append_comm
    · have hd : dictAppend ((pk, pv) :: rest) k e = (pk, pv) :: dictAppend rest k e := by
        simp [dictAppend, hpk]
      rw [hd]
      simp only [List.map_cons, List.flatten_cons, List.append_assoc]
      exact List.Perm.append_left pv ih

/-- Each bucket of the grouping fold holds the events of its key, in
encounter order, after whatever the accumulator already held. -/
theorem bucketOf_foldl (now : Int) (events : List ACGEvent)
    (g : List (String × List ACGEvent)) (k : String) :
    bucketOf (events.foldl (fun groups e => dictAppend groups (timeKeyOf now e) e) g) k
      = bucketOf g k ++ events.filter (fun e => decide (timeKeyOf now e = k)) := by
  induction events generalizing g with
  | nil => simp
  | cons e rest ih =>
    simp only [List.foldl_cons, ih, List.filter_cons]
    by_cases h : timeKeyOf now e = k
    · simp [bucketOf_dictAppend, h]
    · simp [bucketOf_dictAppend, h]

/-- The grouping fold keeps the bucket keys distinct. -/
theorem nodup_keys_foldl (now : Int) (events : List ACGEvent)
    (g : List (String × List ACGEvent)) (h : (g.map Prod.fst).Nodup) :
    ((events.foldl (fun groups e => dictAppend groups (timeKeyOf now e) e) g).map Prod.fst).Nodup := by
  induction events generalizing g with
  | nil => simpa using h
  | cons e rest ih =>
    simp only [List.foldl_cons]
    exact ih _ (nodup_keys_dictAppend g (timeKeyOf now e) e h)

/-- The grouping fold neither drops nor duplicates events. -/
theorem flatten_foldl_perm (now : Int) (events : List ACGEvent)
    (g : List (String × List ACGEvent)) :
    ((events.foldl (fun groups e => dictAppend groups (timeKeyOf now e) e) g).map Prod.snd).flatten.Perm
      ((g.map Prod.snd).flatten ++ events) := by
  induction events generalizing g with
  | nil => simp
  | cons e rest ih =>
    simp only [List.foldl_cons]
    refine (ih (dictAppend g (timeKeyOf now e) e)).trans ?_
    have h1 := flatten_dictAppend_perm g (timeKeyOf now e) e
    refine (h1.append_right rest).trans ?_
    simp [List.append_assoc]

/-- Claim C3: `from_events` puts every event whose interval contains `now`
(inclusive) into the `"进行中"` bucket and every other event into the bucket
of its display `start_time` — each bucket is exactly the subsequence of the
input with that key, so encounter order is preserved — the bucket keys are
pairwise distinct, and the buckets partition the input: their concatenation
is a permutation of the input list, so no event is dropped, duplicated, or
placed in two buckets. -/
theorem from_events_partition (now : Int) (events : List ACGEvent) :
    (∀ k, bucketOf (TimeGroupedEvents.from_events now events).time_groups k
        = events.filter (fun e => decide (timeKeyOf now e = k)))
    ∧ ((TimeGroupedEvents.from_events now events).time_groups.map Prod.fst).Nodup
    ∧ ((TimeGroupedEvents.from_events now events).time_groups.map Prod.snd).flatten.Perm events
    ∧ (∀ e ∈ events,
        (e.is_ongoing now = true →
          e ∈ bucketOf (TimeGroupedEvents.from_events now events).time_groups "进行中")
        ∧ (e.is_ongoing now = false →
          e ∈ bucketOf (TimeGroupedEvents.from_events now events).time_groups e.start_time)) := by
  have hb : ∀ k, bucketOf (TimeGroupedEvents.from_events now events).time_groups k
      = events.filter (fun e => decide (timeKeyOf now e = k)) := by
    intro k
    simpa [TimeGroupedEvents.from_events, bucketOf, dictGetD, dictFind?]
      using bucketOf_foldl now events [] k
  refine ⟨hb, ?_, ?_, ?_⟩
  · simpa using nodup_keys_foldl now events [] (by simp)
  · simpa using flatten_foldl_perm now events []
  · intro e he
    constructor
    · intro hon
      rw [hb "进行中", List.mem_filter]
      exact ⟨he, by simp [timeKeyOf, hon]⟩
    · intro hoff
      rw [hb e.start_time, List.mem_filter]
      exact ⟨he, by simp [timeKeyOf, hoff]⟩

/-- An event that is ongoing at time 150 but displays a dated start time. -/
def sampleOngoingEvent : ACGEvent :=
  { id := "5", project_name := "p", start_time := "2024-10-01 09:00:00", end_time := "",
    start_unix := 100, end_unix := 200, city := "", venue_name := "", min_price := 0,
    max_price := 0, like_count := 0, has_npc := 0, cover := Option.none,
    coordinate := Option.none, description := Option.none }

/-- Concrete instance of C3: the ongoing event lands in the `"进行中"`
bucket in spite of its dated `start_time` string. -/
theorem from_events_partition_witness :
    sampleOngoingEvent ∈ bucketOf (TimeGroupedEvents.from_events 150 [sampleOngoingEvent]).time_groups "进行中" :=
  ((from_events_partition 150 [sampleOngoingEvent]).2.2.2 sampleOngoingEvent (by decide)).1 (by decide)
